import Mathlib

/-!
Verification of the inec_poll repository's core logic against its
natural-language specification: the fixed-window rate limiter
(`lib/middleware/security.ts`), the poll server actions
(`lib/actions/polls.ts`) and the SQL schema's derived views and
policies (`supabase SQL setup`).  All definitions are shallow
embeddings translated directly from the source.
-/

namespace InecPoll

/-! ## Rate limiter (`checkRateLimit`, `rateLimitMiddleware`) -/

/-- One entry of the in-memory `rateLimitStore`:
`{ count: number; resetTime: number }`.  Times are milliseconds since
epoch (`Date.now()`), modelled as `Nat`. -/
structure RLRecord where
  count : Nat
  resetTime : Nat
deriving DecidableEq, Repr

/-- A rate-limit configuration `{ requests: number; window: number }`. -/
structure RateLimit where
  requests : Nat
  window : Nat
deriving DecidableEq, Repr

/-- The rate-limit store, a `Map<string, RLRecord>` modelled as an
association list with at most one binding per key (the operations below
preserve that). -/
abbrev RLStore := List (String × RLRecord)

/-- `rateLimitStore.get(key)`. -/
def lookupRL (key : String) : RLStore → Option RLRecord
  | [] => none
  | (k, r) :: rest => if k = key then some r else lookupRL key rest

/-- `rateLimitStore.set(key, record)` : replaces the binding for `key`
if present, otherwise appends a fresh one. -/
def setRL (key : String) (rec : RLRecord) : RLStore → RLStore
  | [] => [(key, rec)]
  | (k, r) :: rest =>
    if k = key then (key, rec) :: rest else (k, r) :: setRL key rec rest

/-- Shallow embedding of `checkRateLimit(key, limit)`.  `now` is the
value of `Date.now()` at the call.  Returns the boolean result together
with the store after the call (the TS version mutates the shared map). -/
def checkRateLimit (key : String) (limit : RateLimit) (now : Nat)
    (store : RLStore) : Bool × RLStore :=
  match lookupRL key store with
  | none => (true, setRL key ⟨1, now + limit.window⟩ store)
  | some record =>
    if record.resetTime < now then
      -- `!record || now > record.resetTime` : reset the expired record
      (true, setRL key ⟨1, now + limit.window⟩ store)
    else if limit.requests ≤ record.count then
      (false, store)
    else
      (true, setRL key ⟨record.count + 1, record.resetTime⟩ store)

/-- Runs `checkRateLimit` once per element of `times`, threading the
store; collects the boolean results in order. -/
def runCalls (key : String) (limit : RateLimit) :
    List Nat → RLStore → List Bool × RLStore
  | [], store => ([], store)
  | t :: ts, store =>
    let r := checkRateLimit key limit t store
    let rs := runCalls key limit ts r.2
    (r.1 :: rs.1, rs.2)

/-- The five action kinds accepted by `rateLimitMiddleware`. -/
inductive RLAction where
  | create_poll | vote | update_poll | delete_poll | general
deriving DecidableEq, Repr

/-- The string used when building the composite rate-limit key. -/
def RLAction.name : RLAction → String
  | .create_poll => "create_poll"
  | .vote => "vote"
  | .update_poll => "update_poll"
  | .delete_poll => "delete_poll"
  | .general => "general"

/-- The `RATE_LIMITS` configuration table (60-second windows, in ms). -/
def RATE_LIMITS : RLAction → RateLimit
  | .create_poll => ⟨5, 60000⟩
  | .vote => ⟨10, 60000⟩
  | .update_poll => ⟨10, 60000⟩
  | .delete_poll => ⟨3, 60000⟩
  | .general => ⟨100, 60000⟩

/-- `Math.ceil (a / b)` on naturals (for `b > 0`). -/
def ceilDiv (a b : Nat) : Nat := (a + b - 1) / b

/-- The 429 response produced on rejection: its status and the
`retryAfter` value placed both in the JSON body and in the
`Retry-After` header. -/
structure RLResponse where
  status : Nat
  retryAfter : Nat
deriving DecidableEq, Repr

/-- Shallow embedding of `rateLimitMiddleware(request, action, userId)`.
`ip` stands for `getClientIP(request)`.  Returns `some response` when
the request is rate limited, `none` otherwise, plus the updated store. -/
def rateLimitMiddleware (ip : String) (action : RLAction)
    (userId : Option String) (now : Nat) (store : RLStore) :
    Option RLResponse × RLStore :=
  let key := match userId with
    | some u => u ++ ":" ++ action.name
    | none => ip ++ ":" ++ action.name
  let limit := RATE_LIMITS action
  let r := checkRateLimit key limit now store
  if r.1 then (none, r.2)
  else (some ⟨429, ceilDiv limit.window 1000⟩, r.2)

/-! ## Poll store (tables of the SQL schema) -/

/-- A row of `public.polls` (the columns the actions read or write).
`end_date` is a millisecond timestamp; `is_active` defaults to `true`
in the schema. -/
structure PollRow where
  id : String
  title : String
  description : Option String
  election_type : String
  state : Option String
  lga : Option String
  creator_id : Option String
  is_active : Bool
  end_date : Option Nat
deriving DecidableEq, Repr

/-- A row of `public.poll_options`. -/
structure OptionRow where
  id : String
  poll_id : String
  candidate_name : String
  party_name : Option String
  candidate_image_url : Option String
  display_order : Nat
deriving DecidableEq, Repr

/-- A row of `public.votes`.  `voter_id` is nullable in the schema. -/
structure VoteRow where
  id : String
  poll_id : String
  option_id : String
  voter_id : Option String
deriving DecidableEq, Repr

/-- A row of `public.profiles` (the columns `createPoll` touches). -/
structure ProfileRow where
  id : String
  email : String
  full_name : Option String
  avatar_url : Option String
deriving DecidableEq, Repr

/-- The relational store: the four tables of the schema. -/
structure Store where
  profiles : List ProfileRow
  polls : List PollRow
  poll_options : List OptionRow
  votes : List VoteRow
deriving DecidableEq, Repr

/-- `supabase.from('polls').select(...).eq('id', pollId).single()` :
the first row whose id matches (ids are unique in the store). -/
def findPoll (s : Store) (pollId : String) : Option PollRow :=
  s.polls.find? (fun p => p.id = pollId)

/-- The duplicate-vote pre-check: does a `votes` row with this
`(poll_id, voter_id)` pair exist? -/
def hasVote (s : Store) (pollId voterId : String) : Bool :=
  s.votes.any (fun v => v.poll_id = pollId && v.voter_id = some voterId)

/-- The error message produced by the store when an insert violates the
`UNIQUE(poll_id, voter_id)` constraint on `votes`. -/
def dupKeyMsg : String :=
  "duplicate key value violates unique constraint votes_poll_id_voter_id_key"

/-- `supabase.from('votes').insert(...)` : the store accepts the row
unless the `UNIQUE(poll_id, voter_id)` constraint rejects it; a NULL
`voter_id` never conflicts. -/
def insertVote (s : Store) (v : VoteRow) : Except String Store :=
  match v.voter_id with
  | some u =>
    if hasVote s v.poll_id u then .error dupKeyMsg
    else .ok { s with votes := s.votes ++ [v] }
  | none => .ok { s with votes := s.votes ++ [v] }

/-! ## `voteOnPoll` -/

/-- The result returned by a poll action: `{ success: true }` or
`{ success: false, error }`. -/
inductive ActionResult where
  | ok
  | failure (msg : String)
deriving DecidableEq, Repr

def authVoteMsg : String := "Authentication required to vote"
def notFoundMsg : String := "Poll not found"
def inactiveMsg : String := "This poll is no longer active"
def endedMsg : String := "This poll has ended"
def alreadyVotedMsg : String := "You have already voted on this poll"

/-- The read-only guard phase of `voteOnPoll`, evaluated against the
store as of the checks: authentication, poll lookup, `is_active`,
`end_date`, duplicate-vote pre-check, in the order of the source.
Returns the error message of the first failing guard. -/
def voteGuards (pollId userId : String) (now : Nat) (s : Store) :
    Option String :=
  if userId = "" then some authVoteMsg
  else
    match findPoll s pollId with
    | none => some notFoundMsg
    | some poll =>
      if !poll.is_active then some inactiveMsg
      else if poll.end_date.any (fun d => d < now) then some endedMsg
      else if hasVote s pollId userId then some alreadyVotedMsg
      else none

/-- `voteOnPoll(pollId, optionId, userId)` with the two database
round-trips made explicit: the guard phase reads `sCheck`, the insert
runs against `sInsert` (a concurrent writer may act between the two
`await` points; sequentially the stores coincide, see `voteOnPoll`).
A new vote row gets a fresh id `vid`. -/
def voteOnPollAt (pollId optionId userId : String) (now : Nat)
    (vid : String) (sCheck sInsert : Store) : ActionResult × Store :=
  match voteGuards pollId userId now sCheck with
  | some msg => (.failure msg, sInsert)
  | none =>
    match insertVote sInsert ⟨vid, pollId, optionId, some userId⟩ with
    | .error m => (.failure ("Failed to cast vote: " ++ m), sInsert)
    | .ok s' => (.ok, s')

/-- Sequential `voteOnPoll`: both phases see the same store. -/
def voteOnPoll (pollId optionId userId : String) (now : Nat)
    (vid : String) (s : Store) : ActionResult × Store :=
  voteOnPollAt pollId optionId userId now vid s s

/-! ## `createPoll` -/

/-- One entry of `CreatePollData.options`. -/
structure OptionData where
  candidate_name : String
  party_name : Option String
  candidate_image_url : Option String
deriving DecidableEq, Repr

/-- The `CreatePollData` payload (`end_date` already parsed to a
millisecond timestamp, as `new Date(data.end_date)` does). -/
structure CreatePollData where
  title : String
  description : Option String
  election_type : String
  state : Option String
  lga : Option String
  end_date : Option Nat
  options : List OptionData
deriving DecidableEq, Repr

/-- The `options` rule of `createPollSchema`
(`z.array(pollOptionSchema).min(2).max(10)`): the payload must carry
between 2 and 10 candidate entries. -/
def optionsCountValid (d : CreatePollData) : Bool :=
  2 ≤ d.options.length && d.options.length ≤ 10

/-- The result of `createPoll`: `{ success: true, poll_id }` or
`{ success: false, error }`. -/
inductive CreateResult where
  | ok (poll_id : String)
  | failure (msg : String)
deriving DecidableEq, Repr

def authCreateMsg : String := "Authentication required to create polls"

/-- The option rows `createPoll`/`updatePoll` build from the payload:
`display_order = index + 1` in submission order.  Fresh row ids are
derived from `baseId`. -/
def optionRowsFor (baseId pollId : String) (opts : List OptionData) :
    List OptionRow :=
  (List.range opts.length).zip opts |>.map (fun p =>
    ⟨baseId ++ "-o" ++ toString (p.1 + 1), pollId, p.2.candidate_name,
     p.2.party_name, p.2.candidate_image_url, p.1 + 1⟩)

/-- Shallow embedding of `createPoll(data, userId)`.  `freshId` is the
id the store assigns to the new poll row.  Steps of the source: the
authentication guard, the profile existence check with conditional stub
insert, the poll insert (with `is_active` defaulting to `true`), then
the options insert. -/
def createPoll (data : CreatePollData) (userId : String)
    (freshId : String) (s : Store) : CreateResult × Store :=
  if userId = "" then (.failure authCreateMsg, s)
  else
    let s1 :=
      if s.profiles.any (fun p => p.id = userId) then s
      else { s with profiles := s.profiles ++ [⟨userId, "", none, none⟩] }
    let pollRow : PollRow :=
      ⟨freshId, data.title, data.description, data.election_type,
       data.state, data.lga, some userId, true, data.end_date⟩
    let s2 := { s1 with polls := s1.polls ++ [pollRow] }
    let s3 :=
      if data.options.length > 0 then
        { s2 with poll_options :=
            s2.poll_options ++ optionRowsFor freshId freshId data.options }
      else s2
    (.ok freshId, s3)

/-! ## `updatePoll` and the option-delete cascade -/

/-- `supabase.from('poll_options').delete().eq('poll_id', pollId)`,
together with the referential action the schema attaches to it:
`votes.option_id REFERENCES poll_options(id) ON DELETE CASCADE`, so
every vote whose option row is deleted is deleted with it. -/
def deletePollOptions (s : Store) (pollId : String) : Store :=
  let deletedIds := (s.poll_options.filter (fun o => o.poll_id = pollId)).map
    (fun o => o.id)
  { s with
    poll_options := s.poll_options.filter (fun o => !(o.poll_id = pollId)),
    votes := s.votes.filter (fun v => !(deletedIds.contains v.option_id)) }

def authUpdateMsg : String := "Authentication required to update polls"
def notOwnerUpdateMsg : String := "You can only update your own polls"

/-- Shallow embedding of `updatePoll(pollId, data, userId)`: ownership
check, poll-row field update, delete of all existing options (with the
schema's cascade to votes), then insert of the replacement options. -/
def updatePoll (pollId : String) (data : CreatePollData) (userId : String)
    (s : Store) : ActionResult × Store :=
  if userId = "" then (.failure authUpdateMsg, s)
  else
    match findPoll s pollId with
    | none => (.failure notFoundMsg, s)
    | some poll =>
      if poll.creator_id ≠ some userId then (.failure notOwnerUpdateMsg, s)
      else
        let s1 := { s with polls := s.polls.map (fun p =>
          if p.id = pollId then
            { p with title := data.title, description := data.description,
                     election_type := data.election_type,
                     state := data.state, lga := data.lga,
                     end_date := data.end_date }
          else p) }
        let s2 := deletePollOptions s1 pollId
        let s3 :=
          if data.options.length > 0 then
            { s2 with poll_options :=
                s2.poll_options ++ optionRowsFor (pollId ++ "-n") pollId data.options }
          else s2
        (.ok, s3)

/-! ## Derived views (`option_vote_counts`, `get_poll_results`) -/

/-- `COUNT(v.id)` of the `LEFT JOIN votes v ON po.id = v.option_id`
group: the number of vote rows referencing the option. -/
def optionVoteCount (s : Store) (optionId : String) : Nat :=
  (s.votes.filter (fun v => v.option_id = optionId)).length

/-- The per-poll vote total of the `total_poll_votes` subquery:
`SELECT poll_id, COUNT(*) FROM votes GROUP BY poll_id`. -/
def pollTotalVotes (s : Store) (pollId : String) : Nat :=
  (s.votes.filter (fun v => v.poll_id = pollId)).length

/-- The `LEFT JOIN`ed total: the subquery produces no row for a poll
with no votes, so the joined `total` column is NULL (`none`) there. -/
def pollTotalOpt (s : Store) (pollId : String) : Option Nat :=
  if pollTotalVotes s pollId = 0 then none else some (pollTotalVotes s pollId)

/-- `ROUND(x, 2)` of PostgreSQL `numeric` on a nonnegative argument:
half away from zero at the second decimal. -/
def round2 (x : ℚ) : ℚ := (⌊x * 100 + 1 / 2⌋ : ℤ) / 100

/-- The `vote_percentage` column of `option_vote_counts`:
`ROUND(CASE WHEN total > 0 THEN count * 100.0 / total ELSE 0 END, 2)`,
where a NULL `total` (poll with no votes) falls to the ELSE branch. -/
def votePercentage (s : Store) (o : OptionRow) : ℚ :=
  round2 (match pollTotalOpt s o.poll_id with
    | some total => if 0 < total then (optionVoteCount s o.id * 100 : ℚ) / total else 0
    | none => 0)

/-- The unordered result set of `get_poll_results(poll_uuid)`: one row
per option of the poll, paired with its `vote_count`. -/
def pollResultRows (s : Store) (pollId : String) : List (OptionRow × Nat) :=
  (s.poll_options.filter (fun o => o.poll_id = pollId)).map
    (fun o => (o, optionVoteCount s o.id))

/-- The output relation of `get_poll_results`: SQL returns *some*
ordering of the result set consistent with `ORDER BY vote_count DESC`
(the function specifies no further sort key), so a row list is a valid
output iff it is a permutation of the result set that is sorted by
descending vote count. -/
def isResultOf (s : Store) (pollId : String)
    (rows : List (OptionRow × Nat)) : Prop :=
  rows.Perm (pollResultRows s pollId) ∧
    rows.Pairwise (fun a b => b.2 ≤ a.2)

instance (s : Store) (pollId : String) (rows : List (OptionRow × Nat)) :
    Decidable (isResultOf s pollId rows) := by
  unfold isResultOf; infer_instance

/-! ## Rate limiter lemmas -/

theorem lookupRL_setRL_self (key : String) (r : RLRecord) :
    ∀ s : RLStore, lookupRL key (setRL key r s) = some r := by
  intro s
  induction s with
  | nil => simp [setRL, lookupRL]
  | cons hd tl ih =>
    by_cases h : hd.1 = key
    · simp [setRL, h, lookupRL]
    · simp [setRL, h, lookupRL, ih]

theorem runCalls_append (key : String) (limit : RateLimit) :
    ∀ (as bs : List Nat) (s : RLStore),
      runCalls key limit (as ++ bs) s =
        ((runCalls key limit as s).1 ++
          (runCalls key limit bs (runCalls key limit as s).2).1,
         (runCalls key limit bs (runCalls key limit as s).2).2) := by
  intro as
  induction as with
  | nil => intro bs s; simp [runCalls]
  | cons t ts ih => intro bs s; simp [runCalls, ih]

theorem runCalls_under_ceiling (key : String) (limit : RateLimit) :
    ∀ (ts : List Nat) (s : RLStore) (c R : Nat),
      lookupRL key s = some ⟨c, R⟩ →
      (∀ t ∈ ts, t ≤ R) →
      c + ts.length ≤ limit.requests →
      (runCalls key limit ts s).1 = List.replicate ts.length true ∧
        lookupRL key (runCalls key limit ts s).2 = some ⟨c + ts.length, R⟩ := by
  intro ts
  induction ts with
  | nil => intro s c R hrec _ _; simpa [runCalls] using hrec
  | cons t ts ih =>
    intro s c R hrec hts hle
    have hnotexp : ¬ R < t := Nat.not_lt.mpr (hts t (List.mem_cons_self t ts))
    have hlt : ¬ limit.requests ≤ c := by
      simp only [List.length_cons] at hle
      omega
    have hstep : checkRateLimit key limit t s =
        (true, setRL key ⟨c + 1, R⟩ s) := by
      simp [checkRateLimit, hrec, hnotexp, hlt]
    have hrest := ih (setRL key ⟨c + 1, R⟩ s) (c + 1) R
      (lookupRL_setRL_self key ⟨c + 1, R⟩ _)
      (fun u hu => hts u (List.mem_cons_of_mem t hu))
      (by simp only [List.length_cons] at hle; omega)
    refine ⟨?_, ?_⟩
    · simp [runCalls, hstep, hrest.1, List.replicate_succ]
    · simp only [runCalls, hstep, List.length_cons]
      rw [hrest.2, show c + 1 + ts.length = c + (ts.length + 1) from by omega]

/-- C6: for any key and configured ceiling `N ≥ 1`, starting from no
record (or an expired one): the first call starts a fresh window with
count 1 and is accepted, all `N` calls within the window are accepted,
the `(N+1)`-th call inside the window is rejected, and the first call
strictly after the window's reset time is accepted again. -/
theorem checkRateLimit_window_spec (key : String) (limit : RateLimit)
    (s0 : RLStore) (t1 : Nat) (ts : List Nat) (tLast tNext : Nat)
    (hreq : 1 ≤ limit.requests)
    (hfresh : lookupRL key s0 = none ∨
      ∃ r, lookupRL key s0 = some r ∧ r.resetTime < t1)
    (hlen : ts.length = limit.requests - 1)
    (hts : ∀ t ∈ ts, t ≤ t1 + limit.window)
    (hlast : tLast ≤ t1 + limit.window)
    (hnext : t1 + limit.window < tNext) :
    checkRateLimit key limit t1 s0 =
      (true, setRL key ⟨1, t1 + limit.window⟩ s0) ∧
    (runCalls key limit (t1 :: (ts ++ [tLast])) s0).1 =
      List.replicate limit.requests true ++ [false] ∧
    (checkRateLimit key limit tNext
      (runCalls key limit (t1 :: (ts ++ [tLast])) s0).2).1 = true := by
  have hfirst : checkRateLimit key limit t1 s0 =
      (true, setRL key ⟨1, t1 + limit.window⟩ s0) := by
    rcases hfresh with h | ⟨r, hr, hexp⟩
    · simp [checkRateLimit, h]
    · simp [checkRateLimit, hr, hexp]
  set s1 := setRL key ⟨1, t1 + limit.window⟩ s0 with hs1
  have hs1rec : lookupRL key s1 = some ⟨1, t1 + limit.window⟩ :=
    lookupRL_setRL_self key _ s0
  have hmid := runCalls_under_ceiling key limit ts s1 1 (t1 + limit.window)
    hs1rec hts (by omega)
  set s2 := (runCalls key limit ts s1).2 with hs2
  have hlastrec : lookupRL key s2 = some ⟨limit.requests, t1 + limit.window⟩ := by
    have := hmid.2
    rwa [hlen, show 1 + (limit.requests - 1) = limit.requests by omega] at this
  have hreject : checkRateLimit key limit tLast s2 = (false, s2) := by
    simp [checkRateLimit, hlastrec, Nat.not_lt.mpr hlast]
  have hrun : runCalls key limit (t1 :: (ts ++ [tLast])) s0 =
      (true :: ((runCalls key limit ts s1).1 ++ [false]), s2) := by
    simp only [runCalls, hfirst]
    rw [runCalls_append key limit ts [tLast]]
    simp [runCalls, ← hs2, hreject]
  refine ⟨hfirst, ?_, ?_⟩
  · rw [hrun]
    simp only [hmid.1, hlen]
    rw [show limit.requests = (limit.requests - 1) + 1 by omega]
    simp [List.replicate_succ]
  · rw [hrun]
    simp [checkRateLimit, hlastrec, hnext]

/-- C6 witness: the `create_poll` ceiling (5 per 60s window) on an
empty store — five accepted calls, a rejected sixth, acceptance again
after the window. -/
theorem checkRateLimit_window_spec_witness :
    checkRateLimit "u1:create_poll" (RATE_LIMITS .create_poll) 0 [] =
      (true, setRL "u1:create_poll" ⟨1, 60000⟩ []) ∧
    (runCalls "u1:create_poll" (RATE_LIMITS .create_poll)
      (0 :: ([10, 20, 30, 40] ++ [60000])) []).1 =
      List.replicate 5 true ++ [false] ∧
    (checkRateLimit "u1:create_poll" (RATE_LIMITS .create_poll) 60001
      (runCalls "u1:create_poll" (RATE_LIMITS .create_poll)
        (0 :: ([10, 20, 30, 40] ++ [60000])) []).2).1 = true :=
  checkRateLimit_window_spec "u1:create_poll" (RATE_LIMITS .create_poll)
    [] 0 [10, 20, 30, 40] 60000 60001 (by decide) (Or.inl rfl) (by decide)
    (by decide) (by decide) (by decide)

/-- C10: when the key's record exists, its window has not elapsed and
its count has reached the ceiling, `checkRateLimit` returns `false`
and returns the store untouched — the count is not incremented, the
reset time is not extended, and no other entry changes. -/
theorem checkRateLimit_reject_frame (key : String) (limit : RateLimit)
    (now : Nat) (s : RLStore) (r : RLRecord)
    (hrec : lookupRL key s = some r)
    (hwin : ¬ r.resetTime < now)
    (hcount : limit.requests ≤ r.count) :
    checkRateLimit key limit now s = (false, s) := by
  simp [checkRateLimit, hrec, hwin, hcount]

/-- C10 witness: a full `vote` record rejected with the store intact. -/
theorem checkRateLimit_reject_frame_witness :
    checkRateLimit "u1:vote" (RATE_LIMITS .vote) 999
      [("u1:vote", ⟨10, 1000⟩), ("u2:vote", ⟨3, 2000⟩)] =
      (false, [("u1:vote", ⟨10, 1000⟩), ("u2:vote", ⟨3, 2000⟩)]) :=
  checkRateLimit_reject_frame "u1:vote" (RATE_LIMITS .vote) 999
    [("u1:vote", ⟨10, 1000⟩), ("u2:vote", ⟨3, 2000⟩)] ⟨10, 1000⟩
    (by decide) (by decide) (by decide)

/-! ## C7: the retry-after hint -/

/-- A store whose `u1:vote` record is full with 1 ms of window left. -/
def c7Store : RLStore := [("u1:vote", ⟨10, 1000⟩)]

/-- C7 counterexample: at `now = 999` the key `u1:vote` has 1 ms of its
window remaining, so a hint derived from the remaining window time
would be `ceil(1/1000) = 1` second; the middleware instead answers
with `retryAfter = 60`, the full configured window. -/
theorem rateLimitMiddleware_hint_counterexample :
    (rateLimitMiddleware "1.2.3.4" .vote (some "u1") 999 c7Store).1 =
      some ⟨429, 60⟩ ∧
    ceilDiv (1000 - 999) 1000 = 1 ∧ (60 : Nat) ≠ 1 := by decide

/-- C7 amended: whenever the middleware rejects a request, the response
carries `retryAfter = ceil(window / 1000)` — the full configured window
length of the action in seconds, independent of the remaining time of
the key's current window. -/
theorem rateLimitMiddleware_hint_full_window (ip : String)
    (action : RLAction) (userId : Option String) (now : Nat)
    (s s' : RLStore) (resp : RLResponse)
    (h : rateLimitMiddleware ip action userId now s = (some resp, s')) :
    resp = ⟨429, ceilDiv (RATE_LIMITS action).window 1000⟩ := by
  dsimp only [rateLimitMiddleware] at h
  revert h
  rcases checkRateLimit (match userId with
      | some u => u ++ ":" ++ action.name
      | none => ip ++ ":" ++ action.name) (RATE_LIMITS action) now s
    with ⟨ok, s2⟩
  intro h
  cases ok
  · simp only [Bool.false_eq_true, if_false, Prod.mk.injEq,
      Option.some.injEq] at h
    exact h.1.symm
  · simp at h

/-- C7 witness: a rejected `delete_poll` request answered with the full
60-second hint. -/
theorem rateLimitMiddleware_hint_full_window_witness :
    (⟨429, 60⟩ : RLResponse) =
      ⟨429, ceilDiv (RATE_LIMITS .delete_poll).window 1000⟩ :=
  rateLimitMiddleware_hint_full_window "1.2.3.4" .delete_poll none 50
    [("1.2.3.4:delete_poll", ⟨3, 100⟩)] [("1.2.3.4:delete_poll", ⟨3, 100⟩)]
    ⟨429, 60⟩ (by decide)

/-! ## C1: the guard order of `voteOnPoll` -/

/-- An active poll whose end timestamp equals the current instant used
in `voteOnPoll_end_boundary_counterexample`. -/
def c1Store : Store :=
  ⟨[], [⟨"P1", "T", none, "Presidential", none, none, some "u1", true,
    some 100⟩], [], []⟩

/-- C1 counterexample: the poll's `end_date` (100) is *not strictly
after* the current time (100), yet the vote succeeds and a vote row is
inserted — the source compares `end_date < now`, so an `end_date` equal
to the current time does not trigger `PollEnded`. -/
theorem voteOnPoll_end_boundary_counterexample :
    (voteOnPoll "P1" "o1" "v1" 100 "vid1" c1Store).1 = .ok ∧
    (voteOnPoll "P1" "o1" "v1" 100 "vid1" c1Store).1 ≠ .failure endedMsg ∧
    (voteOnPoll "P1" "o1" "v1" 100 "vid1" c1Store).2.votes =
      [⟨"vid1", "P1", "o1", some "v1"⟩] := by decide

/-- C1 amended: the guards run in the stated order, short-circuiting on
the first failure — empty voter, missing poll, inactive poll, then
`PollEnded` when the end timestamp is *strictly before* the current
time (an end timestamp equal to the current time passes), then the
duplicate-vote check; only when all guards pass is the vote row
inserted and success returned. -/
theorem voteOnPoll_guard_order (pollId optionId userId : String)
    (now : Nat) (vid : String) (s : Store) :
    (userId = "" →
      voteOnPoll pollId optionId userId now vid s = (.failure authVoteMsg, s)) ∧
    (userId ≠ "" → findPoll s pollId = none →
      voteOnPoll pollId optionId userId now vid s = (.failure notFoundMsg, s)) ∧
    (∀ p, userId ≠ "" → findPoll s pollId = some p → p.is_active = false →
      voteOnPoll pollId optionId userId now vid s = (.failure inactiveMsg, s)) ∧
    (∀ p d, userId ≠ "" → findPoll s pollId = some p → p.is_active = true →
      p.end_date = some d → d < now →
      voteOnPoll pollId optionId userId now vid s = (.failure endedMsg, s)) ∧
    (∀ p, userId ≠ "" → findPoll s pollId = some p → p.is_active = true →
      (∀ d, p.end_date = some d → now ≤ d) → hasVote s pollId userId = true →
      voteOnPoll pollId optionId userId now vid s =
        (.failure alreadyVotedMsg, s)) ∧
    (∀ p, userId ≠ "" → findPoll s pollId = some p → p.is_active = true →
      (∀ d, p.end_date = some d → now ≤ d) → hasVote s pollId userId = false →
      voteOnPoll pollId optionId userId now vid s =
        (.ok, { s with votes := s.votes ++ [⟨vid, pollId, optionId, some userId⟩] })) := by
  refine ⟨?_, ?_, ?_, ?_, ?_, ?_⟩
  · intro hu
    simp [voteOnPoll, voteOnPollAt, voteGuards, hu]
  · intro hu hp
    simp [voteOnPoll, voteOnPollAt, voteGuards, hu, hp]
  · intro p hu hp hact
    simp [voteOnPoll, voteOnPollAt, voteGuards, hu, hp, hact]
  · intro p d hu hp hact hed hlt
    simp [voteOnPoll, voteOnPollAt, voteGuards, hu, hp, hact, hed,
      Option.any, hlt]
  · intro p hu hp hact hno hvote
    have hendf : p.end_date.any (fun d => decide (d < now)) = false := by
      cases hed : p.end_date with
      | none => rfl
      | some d => simpa [Option.any] using Nat.not_lt.mpr (hno d hed)
    simp [voteOnPoll, voteOnPollAt, voteGuards, hu, hp, hact, hendf, hvote]
  · intro p hu hp hact hno hvote
    have hendf : p.end_date.any (fun d => decide (d < now)) = false := by
      cases hed : p.end_date with
      | none => rfl
      | some d => simpa [Option.any] using Nat.not_lt.mpr (hno d hed)
    simp [voteOnPoll, voteOnPollAt, voteGuards, hu, hp, hact, hendf, hvote,
      insertVote]

/-- C1 witness: each of the six guard cases exercised on a concrete
store — empty voter, unknown poll, inactive poll, strictly past end
date, duplicate vote, and a successful insert. -/
theorem voteOnPoll_guard_order_witness :
    voteOnPoll "P" "o" "" 5 "v0" ⟨[], [], [], []⟩ =
      (.failure authVoteMsg, ⟨[], [], [], []⟩) ∧
    voteOnPoll "P" "o" "u" 5 "v0" ⟨[], [], [], []⟩ =
      (.failure notFoundMsg, ⟨[], [], [], []⟩) ∧
    voteOnPoll "P" "o" "u" 5 "v0"
        ⟨[], [⟨"P", "T", none, "Presidential", none, none, none, false, none⟩], [], []⟩ =
      (.failure inactiveMsg,
        ⟨[], [⟨"P", "T", none, "Presidential", none, none, none, false, none⟩], [], []⟩) ∧
    voteOnPoll "P" "o" "u" 50 "v0"
        ⟨[], [⟨"P", "T", none, "Presidential", none, none, none, true, some 10⟩], [], []⟩ =
      (.failure endedMsg,
        ⟨[], [⟨"P", "T", none, "Presidential", none, none, none, true, some 10⟩], [], []⟩) ∧
    voteOnPoll "P" "o" "u" 5 "v0"
        ⟨[], [⟨"P", "T", none, "Presidential", none, none, none, true, none⟩], [],
          [⟨"w1", "P", "o", some "u"⟩]⟩ =
      (.failure alreadyVotedMsg,
        ⟨[], [⟨"P", "T", none, "Presidential", none, none, none, true, none⟩], [],
          [⟨"w1", "P", "o", some "u"⟩]⟩) ∧
    voteOnPoll "P" "o" "u" 5 "v0"
        ⟨[], [⟨"P", "T", none, "Presidential", none, none, none, true, none⟩], [], []⟩ =
      (.ok,
        ⟨[], [⟨"P", "T", none, "Presidential", none, none, none, true, none⟩], [],
          [⟨"v0", "P", "o", some "u"⟩]⟩) :=
  ⟨(voteOnPoll_guard_order "P" "o" "" 5 "v0" _).1 rfl,
   (voteOnPoll_guard_order "P" "o" "u" 5 "v0" _).2.1 (by decide) (by decide),
   (voteOnPoll_guard_order "P" "o" "u" 5 "v0" _).2.2.1
     ⟨"P", "T", none, "Presidential", none, none, none, false, none⟩
     (by decide) (by decide) rfl,
   (voteOnPoll_guard_order "P" "o" "u" 50 "v0" _).2.2.2.1
     ⟨"P", "T", none, "Presidential", none, none, none, true, some 10⟩
     10 (by decide) (by decide) rfl rfl (by decide),
   (voteOnPoll_guard_order "P" "o" "u" 5 "v0" _).2.2.2.2.1
     ⟨"P", "T", none, "Presidential", none, none, none, true, none⟩
     (by decide) (by decide) rfl (fun d h => nomatch h) (by decide),
   (voteOnPoll_guard_order "P" "o" "u" 5 "v0" _).2.2.2.2.2
     ⟨"P", "T", none, "Presidential", none, none, none, true, none⟩
     (by decide) (by decide) rfl (fun d h => nomatch h) (by decide)⟩

/-! ## C2: past end date versus the active flag -/

/-- An *inactive* poll whose end date lies strictly in the past. -/
def c2Store : Store :=
  ⟨[], [⟨"P1", "T", none, "Presidential", none, none, some "u1", false,
    some 5⟩], [], []⟩

/-- C2 counterexample: voting at time 10 on a poll with `end_date = 5`
and `is_active = false` fails with the `PollInactive` message, not
`PollEnded` — the active-flag guard runs first. -/
theorem voteOnPoll_ended_inactive_counterexample :
    (voteOnPoll "P1" "o1" "v1" 10 "vid1" c2Store).1 = .failure inactiveMsg ∧
    (voteOnPoll "P1" "o1" "v1" 10 "vid1" c2Store).1 ≠ .failure endedMsg := by
  decide

/-- C2 amended: a vote on a poll whose end date is strictly in the past
always fails, with `PollEnded` when the poll is still flagged active
and with `PollInactive` (checked first) when it is not. -/
theorem voteOnPoll_past_end (pollId optionId userId : String) (now : Nat)
    (vid : String) (s : Store) (p : PollRow) (d : Nat)
    (hu : userId ≠ "") (hp : findPoll s pollId = some p)
    (hed : p.end_date = some d) (hpast : d < now) :
    voteOnPoll pollId optionId userId now vid s =
      (.failure (if p.is_active then endedMsg else inactiveMsg), s) := by
  cases hact : p.is_active
  · simp [voteOnPoll, voteOnPollAt, voteGuards, hu, hp, hact]
  · simp [voteOnPoll, voteOnPollAt, voteGuards, hu, hp, hact, hed,
      Option.any, hpast]

/-- C2 witness: the active case of `voteOnPoll_past_end` on a concrete
store (active poll, `end_date = 5`, current time 10). -/
theorem voteOnPoll_past_end_witness :
    voteOnPoll "P1" "o1" "v1" 10 "vid1"
        ⟨[], [⟨"P1", "T", none, "Presidential", none, none, some "u1", true,
          some 5⟩], [], []⟩ =
      (.failure (if true then endedMsg else inactiveMsg),
        ⟨[], [⟨"P1", "T", none, "Presidential", none, none, some "u1", true,
          some 5⟩], [], []⟩) :=
  voteOnPoll_past_end "P1" "o1" "v1" 10 "vid1" _
    ⟨"P1", "T", none, "Presidential", none, none, some "u1", true, some 5⟩
    5 (by decide) (by decide) rfl (by decide)

/-! ## C3: uniqueness-constraint rejection of the insert -/

/-- The store as of `voteOnPoll`'s guard phase: active poll, no vote of
`v1` yet. -/
def c3CheckStore : Store :=
  ⟨[], [⟨"P1", "T", none, "Presidential", none, none, some "u1", true,
    none⟩], [], []⟩

/-- The store as of the insert: a concurrent vote by the same voter
slipped in between the duplicate pre-check and the insert. -/
def c3InsertStore : Store :=
  ⟨[], [⟨"P1", "T", none, "Presidential", none, none, some "u1", true,
    none⟩], [], [⟨"w1", "P1", "o1", some "v1"⟩]⟩

/-- C3 counterexample: when the uniqueness constraint rejects the
insert after the pre-check passed, the surfaced error is the generic
`Failed to cast vote: …` message, not the `AlreadyVoted` one. -/
theorem voteOnPoll_race_counterexample :
    (voteOnPollAt "P1" "o2" "v1" 10 "vid2" c3CheckStore c3InsertStore).1 =
      .failure ("Failed to cast vote: " ++ dupKeyMsg) ∧
    (voteOnPollAt "P1" "o2" "v1" 10 "vid2" c3CheckStore c3InsertStore).1 ≠
      .failure alreadyVotedMsg := by decide

/-- C3 amended: whenever the guard phase passes but the store's
uniqueness constraint on `(poll_id, voter_id)` rejects the insert, the
operation surfaces the generic failure `Failed to cast vote: ` followed
by the constraint message — not the `AlreadyVoted` error. -/
theorem voteOnPoll_race_generic (pollId optionId userId : String)
    (now : Nat) (vid : String) (sCheck sInsert : Store)
    (hguards : voteGuards pollId userId now sCheck = none)
    (hdup : hasVote sInsert pollId userId = true) :
    voteOnPollAt pollId optionId userId now vid sCheck sInsert =
      (.failure ("Failed to cast vote: " ++ dupKeyMsg), sInsert) := by
  simp [voteOnPollAt, hguards, insertVote, hdup]

/-- C3 witness: the amended statement at the concrete raced stores. -/
theorem voteOnPoll_race_generic_witness :
    voteOnPollAt "P1" "o2" "v1" 10 "vid2" c3CheckStore c3InsertStore =
      (.failure ("Failed to cast vote: " ++ dupKeyMsg), c3InsertStore) :=
  voteOnPoll_race_generic "P1" "o2" "v1" 10 "vid2" c3CheckStore
    c3InsertStore (by decide) (by decide)

/-! ## C4: `createPoll` and the structural schema -/

/-- A creation payload with a single candidate option — it violates the
`min(2)` rule of `createPollSchema`. -/
def c4Data : CreatePollData :=
  ⟨"Test Poll", none, "Presidential", none, none, none,
    [⟨"Alice", none, none⟩]⟩

/-- C4: `createPoll` performs no schema validation at all.  Called on
an empty store with a payload carrying one candidate (which
`createPollSchema` rejects), it reports success and persists a profile
stub, the poll row and the single option row. -/
theorem createPoll_skips_validation :
    optionsCountValid c4Data = false ∧
    createPoll c4Data "u1" "p1" ⟨[], [], [], []⟩ =
      (.ok "p1",
        ⟨[⟨"u1", "", none, none⟩],
         [⟨"p1", "Test Poll", none, "Presidential", none, none, some "u1",
           true, none⟩],
         [⟨"p1-o1", "p1", "Alice", none, none, 1⟩], []⟩) := by decide

/-! ## C5: vote immutability under `updatePoll` -/

/-- A poll of creator `u1` with two options and one existing vote. -/
def c5Store : Store :=
  ⟨[⟨"u1", "", none, none⟩],
   [⟨"P1", "T", none, "Presidential", none, none, some "u1", true, none⟩],
   [⟨"o1", "P1", "A", none, none, 1⟩, ⟨"o2", "P1", "B", none, none, 2⟩],
   [⟨"v1", "P1", "o1", some "w1"⟩]⟩

/-- The update payload `u1` submits: the same two candidates. -/
def c5Data : CreatePollData :=
  ⟨"T2", none, "Presidential", none, none, none,
    [⟨"A", none, none⟩, ⟨"B", none, none⟩]⟩

/-- C5: `updatePoll` by the poll's creator succeeds and silently
removes the poll's existing vote — the delete-then-reinsert of the
options cascades over `votes.option_id ON DELETE CASCADE`, so votes
are *not* deleted only when the poll itself is deleted. -/
theorem updatePoll_cascade_deletes_votes :
    c5Store.votes = [⟨"v1", "P1", "o1", some "w1"⟩] ∧
    (updatePoll "P1" c5Data "u1" c5Store).1 = .ok ∧
    (updatePoll "P1" c5Data "u1" c5Store).2.votes = [] := by decide

/-! ## C8: the vote-percentage view -/

theorem round2_zero : round2 0 = 0 := by
  unfold round2
  norm_num

/-- C8: the `vote_percentage` of an option is 0 whenever its poll's
total vote count is 0 (no division by zero); otherwise it equals the
option's count times 100 divided by the poll total, rounded to two
decimals; and an option with 0 votes has percentage exactly 0 in every
case. -/
theorem votePercentage_spec (s : Store) (o : OptionRow) :
    (pollTotalVotes s o.poll_id = 0 → votePercentage s o = 0) ∧
    (0 < pollTotalVotes s o.poll_id →
      votePercentage s o =
        round2 ((optionVoteCount s o.id * 100 : ℚ) /
          (pollTotalVotes s o.poll_id : ℚ))) ∧
    (optionVoteCount s o.id = 0 → votePercentage s o = 0) := by
  by_cases h0 : pollTotalVotes s o.poll_id = 0
  · exact ⟨fun _ => by simp [votePercentage, pollTotalOpt, h0, round2_zero],
      fun h => absurd h0 (by omega),
      fun _ => by simp [votePercentage, pollTotalOpt, h0, round2_zero]⟩
  · have hpos : 0 < pollTotalVotes s o.poll_id := Nat.pos_of_ne_zero h0
    refine ⟨fun h => absurd h h0, fun _ => ?_, fun hc => ?_⟩
    · simp [votePercentage, pollTotalOpt, h0, hpos]
    · simp [votePercentage, pollTotalOpt, h0, hpos, hc, round2_zero]

/-- A poll with two options and two votes, both for option `o1`. -/
def c8Store : Store :=
  ⟨[], [⟨"P1", "T", none, "Presidential", none, none, some "u1", true, none⟩],
   [⟨"o1", "P1", "A", none, none, 1⟩, ⟨"o2", "P1", "B", none, none, 2⟩],
   [⟨"v1", "P1", "o1", some "a"⟩, ⟨"v2", "P1", "o1", some "b"⟩]⟩

/-- C8 witness: in a poll with 2 total votes, the option with 0 votes
has percentage exactly 0. -/
theorem votePercentage_spec_witness :
    pollTotalVotes c8Store "P1" = 2 ∧ optionVoteCount c8Store "o2" = 0 ∧
    votePercentage c8Store ⟨"o2", "P1", "B", none, none, 2⟩ = 0 :=
  ⟨by decide, by decide,
   (votePercentage_spec c8Store ⟨"o2", "P1", "B", none, none, 2⟩).2.2
     (by decide)⟩

/-! ## C9: result ordering of `get_poll_results` -/

/-- The ordering property C9 asserts of ties: any two rows with equal
vote counts appear with ascending `display_order`. -/
def tiesByDisplayOrder (rows : List (OptionRow × Nat)) : Prop :=
  rows.Pairwise (fun a b => a.2 = b.2 → a.1.display_order ≤ b.1.display_order)

instance (rows : List (OptionRow × Nat)) :
    Decidable (tiesByDisplayOrder rows) := by
  unfold tiesByDisplayOrder; infer_instance

/-- Two tied options (0 votes each) with display orders 1 and 2. -/
def c9Store : Store :=
  ⟨[], [⟨"P1", "T", none, "Presidential", none, none, some "u1", true, none⟩],
   [⟨"oA", "P1", "A", none, none, 1⟩, ⟨"oB", "P1", "B", none, none, 2⟩], []⟩

/-- C9 counterexample: `get_poll_results` orders only by
`vote_count DESC`; the output that lists the tied options against
their display order is a valid result, so the display-order tie-break
is not guaranteed. -/
theorem get_poll_results_tie_counterexample :
    isResultOf c9Store "P1"
      [(⟨"oB", "P1", "B", none, none, 2⟩, 0),
       (⟨"oA", "P1", "A", none, none, 1⟩, 0)] ∧
    ¬ tiesByDisplayOrder
      [(⟨"oB", "P1", "B", none, none, 2⟩, 0),
       (⟨"oA", "P1", "A", none, none, 1⟩, 0)] := by decide

/-- C9 amended: a valid output of `get_poll_results` always exists and
every valid output is sorted by vote count descending (later rows never
have more votes than earlier ones); the tie order among equal counts is
unspecified, as the function has no secondary sort key. -/
theorem get_poll_results_sorted_desc (s : Store) (pollId : String) :
    (∃ rows, isResultOf s pollId rows) ∧
    ∀ rows, isResultOf s pollId rows →
      ∀ i j (hij : i < j) (hj : j < rows.length),
        (rows.get ⟨j, hj⟩).2 ≤ (rows.get ⟨i, Nat.lt_trans hij hj⟩).2 := by
  constructor
  · refine ⟨(pollResultRows s pollId).mergeSort
      (fun a b => decide (b.2 ≤ a.2)), List.mergeSort_perm _ _, ?_⟩
    have hp := @List.sorted_mergeSort (OptionRow × Nat)
      (fun a b => decide (b.2 ≤ a.2))
      (fun a b c h1 h2 => by
        simp only [decide_eq_true_eq] at h1 h2 ⊢; omega)
      (fun a b => by
        rcases Nat.le_total b.2 a.2 with h | h <;> simp [h])
      (pollResultRows s pollId)
    exact hp.imp (fun h => of_decide_eq_true h)
  · intro rows hrows i j hij hj
    exact List.pairwise_iff_get.mp hrows.2 ⟨i, Nat.lt_trans hij hj⟩ ⟨j, hj⟩ hij

/-- The display-order-respecting valid result for `c9Store`. -/
def c9RowsOk : List (OptionRow × Nat) :=
  [(⟨"oA", "P1", "A", none, none, 1⟩, 0),
   (⟨"oB", "P1", "B", none, none, 2⟩, 0)]

/-- C9 witness: a valid result for the two-option poll, with the
descending-count bound instantiated at its two rows. -/
theorem get_poll_results_sorted_desc_witness :
    isResultOf c9Store "P1" c9RowsOk ∧
    (c9RowsOk.get ⟨1, by decide⟩).2 ≤ (c9RowsOk.get ⟨0, by decide⟩).2 :=
  ⟨by decide,
   (get_poll_results_sorted_desc c9Store "P1").2 c9RowsOk (by decide) 0 1
     (by decide) (by decide)⟩

end InecPoll
